import Mathlib

/-!
Verification development for the catalog service (books/ratings/migrations).

The definitions below are shallow embeddings of the TypeScript source:
  * the rating update pipeline of src/src/routes/closed/books.ts
    (bookRouter.put, the /update route);
  * the migration engine of src/unnamed/part_009 (migrate /
    migrateFromVersion) together with the migration scripts under
    src/migrations;
  * the pagination middleware validOffset / validPage of
    src/src/core/middleware/index.ts and the /all/title route of
    src/src/routes/open/books.ts;
  * the rating-range middleware validMinMax / clamp of
    src/src/core/middleware/index.ts;
  * the /search composer of src/unnamed/part_004 (third revision in the
    file, lines 485-583);
  * the /search/title and /search/isbn handlers of src/unnamed/part_006;
  * the keyword search route and its checkQueryFormat middleware
    (src/unnamed/part_006 lines 229-239 and 446-457, identical text in
    src/unnamed/part_004 lines 356-368 and 602-617).

Numbers are modelled with Int / Nat / Rat (the store columns are integers,
the stored average is a 2-decimal numeric, modelled as a rational).
-/

/-! ## Rating update pipeline (src/src/routes/closed/books.ts, PUT /books/update) -/

/-- Row of the books relation, restricted to the columns that the rating
update pipeline reads or writes, plus the isbn13 key used in every WHERE
clause.  The remaining columns (id, title, images, ...) are never touched
by the embedded statements. -/
structure Book where
  isbn13 : Nat
  rating_1_star : Int
  rating_2_star : Int
  rating_3_star : Int
  rating_4_star : Int
  rating_5_star : Int
  rating_count : Int
  rating_avg : Rat
deriving DecidableEq, Repr

/-- The ratingtype query parameter; validRatingType restricts it to the
five bucket column names rating_1_star .. rating_5_star. -/
inductive RatingType where
  | rating_1_star
  | rating_2_star
  | rating_3_star
  | rating_4_star
  | rating_5_star
deriving DecidableEq, Repr

/-- The changetype query parameter; validRatingChangeType restricts it to
increaseby, decreaseby and setto. -/
inductive ChangeType where
  | increaseby
  | decreaseby
  | setto
deriving DecidableEq, Repr

/-- Read the bucket column selected by ratingtype. -/
def getBucket : RatingType → Book → Int
  | .rating_1_star, b => b.rating_1_star
  | .rating_2_star, b => b.rating_2_star
  | .rating_3_star, b => b.rating_3_star
  | .rating_4_star, b => b.rating_4_star
  | .rating_5_star, b => b.rating_5_star

/-- Write the bucket column selected by ratingtype. -/
def setBucket : RatingType → Int → Book → Book
  | .rating_1_star, n, b => { b with rating_1_star := n }
  | .rating_2_star, n, b => { b with rating_2_star := n }
  | .rating_3_star, n, b => { b with rating_3_star := n }
  | .rating_4_star, n, b => { b with rating_4_star := n }
  | .rating_5_star, n, b => { b with rating_5_star := n }

/-- New value of the targeted bucket: `ratingtype + $1`, `ratingtype - $1`
or `$1` according to changetype (books.ts lines 83-90). -/
def applyChange : ChangeType → Int → Int → Int
  | .increaseby, old, v => old + v
  | .decreaseby, old, v => old - v
  | .setto, _, v => v

/-- Predicate of the `WHERE isbn13 = $2` clause. -/
def isbnMatches (isbn : Nat) (b : Book) : Bool :=
  b.isbn13 == isbn

/-- Sum of the five bucket counters, as in the calcCount statement
`rating_count = rating_1_star + rating_2_star + rating_3_star +
rating_4_star + rating_5_star`. -/
def sumBuckets (b : Book) : Int :=
  b.rating_1_star + b.rating_2_star + b.rating_3_star + b.rating_4_star + b.rating_5_star

/-- Weighted sum `rating_1_star + 2*rating_2_star + 3*rating_3_star +
4*rating_4_star + 5*rating_5_star` from the calcAvg statement. -/
def weightedSum (b : Book) : Int :=
  b.rating_1_star + 2 * b.rating_2_star + 3 * b.rating_3_star + 4 * b.rating_4_star + 5 * b.rating_5_star

/-- Round a rational half away from zero to an integer, the behaviour of
Postgres ROUND on numeric values.  For x = num/den with den positive,
the floor of x + 1/2 is (2*num + den) / (2*den) in integer division, and
a negative x rounds to minus the rounding of -x. -/
def roundHalfAway (x : Rat) : Int :=
  if 0 ≤ x.num then (2 * x.num + x.den) / (2 * (x.den : Int))
  else -((2 * (-x.num) + (x.den : Int)) / (2 * (x.den : Int)))

/-- Round to two decimal places, the `ROUND(..., 2)` of the calcAvg
statement: scale by 100, round half away from zero, divide by 100. -/
def round2 (x : Rat) : Rat :=
  Rat.divInt (roundHalfAway (Rat.divInt (100 * x.num) (x.den : Int))) 100

/-- Step 1 of the pipeline: the UPDATE statement
`UPDATE books SET ratingtype = ... WHERE isbn13 = $2` applied to every
matching row of the store. -/
def updateBucketStmt (isbn : Nat) (rt : RatingType) (ct : ChangeType) (v : Int) (s : List Book) : List Book :=
  s.map (fun b => if isbnMatches isbn b then setBucket rt (applyChange ct (getBucket rt b) v) b else b)

/-- Row count reported by the UPDATE statement: the number of rows that
matched `isbn13 = $2`. -/
def matchedCount (isbn : Nat) (s : List Book) : Nat :=
  (s.filter (isbnMatches isbn)).length

/-- The negativity check (books.ts lines 104-120): the pipeline SELECTs the
targeted bucket of every matching row and throws when any value is
negative. -/
def anyNegativeBucket (isbn : Nat) (rt : RatingType) (s : List Book) : Bool :=
  (s.filter (isbnMatches isbn)).any (fun b => getBucket rt b < 0)

/-- Step 4: the calcCount statement, setting rating_count to the sum of
the five buckets on every matching row. -/
def calcCountStmt (isbn : Nat) (s : List Book) : List Book :=
  s.map (fun b => if isbnMatches isbn b then { b with rating_count := sumBuckets b } else b)

/-- Division-by-zero detection for the calcAvg statement: Postgres aborts
the UPDATE when some matching row has rating_count = 0. -/
def anyZeroCount (isbn : Nat) (s : List Book) : Bool :=
  (s.filter (isbnMatches isbn)).any (fun b => b.rating_count == 0)

/-- Step 5: the calcAvg statement, setting rating_avg to
`ROUND(weighted / CAST(rating_count AS DECIMAL(30,1)), 2)` on every
matching row. -/
def calcAvgStmt (isbn : Nat) (s : List Book) : List Book :=
  s.map (fun b =>
    if isbnMatches isbn b then
      { b with rating_avg := round2 (Rat.divInt (weightedSum b) b.rating_count) }
    else b)

/-- Error taxonomy of the pipeline's catch block (books.ts lines 141-156):
the two named errors thrown by the handler, and the generic case for any
other (database) failure. -/
inductive UpdateErr where
  | noBooks
  | negativeNumber
  | dbError
deriving DecidableEq, Repr

/-- Message rendered for each error kind by the catch block. -/
def updateErrorMessage : UpdateErr → String
  | .noBooks => "Update incomplete: No book with this ISBN."
  | .negativeNumber => "Update incomplete: Rating amount cannot be a negative number."
  | .dbError => "Server or database error occurred."

/-- Result of the transactional pipeline.  A failure carries the store
after ROLLBACK, which restores the state from before BEGIN. -/
inductive UpdateResult where
  | success (store : List Book)
  | failure (err : UpdateErr) (store : List Book)
deriving DecidableEq, Repr

/-- The whole /books/update pipeline (books.ts lines 95-156): BEGIN, the
bucket UPDATE, the zero-row check, the negativity check, calcCount,
calcAvg, COMMIT; any failure rolls the transaction back to the original
store. -/
def updateBookRatings (isbn : Nat) (rt : RatingType) (ct : ChangeType) (v : Int) (s : List Book) : UpdateResult :=
  let s1 := updateBucketStmt isbn rt ct v s
  if matchedCount isbn s = 0 then .failure .noBooks s
  else if anyNegativeBucket isbn rt s1 then .failure .negativeNumber s
  else
    let s2 := calcCountStmt isbn s1
    if anyZeroCount isbn s2 then .failure .dbError s
    else .success (calcAvgStmt isbn s2)

/-! ## Migration engine (src/unnamed/part_009, migrate / migrateFromVersion) -/

/-- Highest schema version known to migrateFromVersion (case 4 is the
"up to date" case of the switch). -/
def latestKnownVersion : Nat := 4

/-- Message of the Error thrown by the default case of the switch of
migrateFromVersion. -/
def unrecognizedVersionMsg (v : Nat) : String :=
  "Unrecognized database schema version " ++ toString v ++ ", panicking!"

/-- Scripts executed by migrateFromVersion for a detected version.  The
switch statement of part_009 lines 46-66 has no break between cases 0-3,
so from case v execution falls through every later case up to the break in
case 4; each case awaits the upgrade of the next script, so the scripts
v+1, v+2, ..., 4 run in that order.  Any version outside 0..4 hits the
default case and throws. -/
def migrateFromVersion : Nat → Except String (List Nat)
  | 0 => .ok [1, 2, 3, 4]
  | 1 => .ok [2, 3, 4]
  | 2 => .ok [3, 4]
  | 3 => .ok [4]
  | 4 => .ok []
  | v + 5 => .error (unrecognizedVersionMsg (v + 5))

/-- Singleton schema_version record; none models the bootstrap state in
which the relation (or its row) does not exist yet. -/
structure SchemaState where
  version : Option Nat
deriving DecidableEq, Repr

/-- Modelled from the spec: effect of running migration script k on the
version record.  up1.sql, up4.sql and up5.sql (src/migrations) and the
tail of up3.sql (visible in the repository) all end by truncating
schema_version and inserting their own number; up2.sql is not in the tree,
so its stamping step follows the spec sentence "each script committing the
record to its own version number as its final act". -/
def applyScript (_s : SchemaState) (k : Nat) : SchemaState :=
  { version := some k }

/-- Run a list of migration scripts in order. -/
def runScripts (s : SchemaState) (ks : List Nat) : SchemaState :=
  ks.foldl applyScript s

/-- Outcome of the initial `SELECT * FROM schema_version` read: either the
relation is missing (Postgres error 42P01) or a version was read. -/
inductive VersionRead where
  | relationMissing
  | found (v : Nat)
deriving DecidableEq, Repr

/-- Outcome of migrate.  loggedError models the catch branch that only
calls console.error and resolves normally: the error does not escape
migrate and the process keeps starting up. -/
inductive MigrateOutcome where
  | upgraded (applied : List Nat)
  | loggedError (msg : String)
deriving DecidableEq, Repr

/-- Log line written by the catch branch that swallows the error. -/
def migrateLogMsg (e : String) : String :=
  "Unable to upgrade database due to " ++ e

/-- The migrate function of part_009 lines 32-44: read the version record,
delegate to migrateFromVersion; a 42P01 read failure restarts from
version 0, and any error reaching the catch with another code (including
the Error thrown by migrateFromVersion itself) is logged and swallowed. -/
def migrate : VersionRead → MigrateOutcome
  | .relationMissing =>
    match migrateFromVersion 0 with
    | .ok applied => .upgraded applied
    | .error e => .loggedError (migrateLogMsg e)
  | .found v =>
    match migrateFromVersion v with
    | .ok applied => .upgraded applied
    | .error e => .loggedError (migrateLogMsg e)

/-! ## Pagination middleware (src/src/core/middleware/index.ts, validOffset
and validPage) and the /all/title route (src/src/routes/open/books.ts) -/

/-- A numeric query parameter as JavaScript sees it: absent, present but
not numeric (Number() gives NaN), or a numeric value.  isNumberProvided of
the core utilities (the file is not in the tree) is the presence+numeric
test used by the middleware; only the val case passes it. -/
inductive QueryNum where
  | missing
  | notNumeric
  | val (n : Int)
deriving DecidableEq, Repr

/-- Message sent when the offset parameter is not numeric (the misspelling
is in the source). -/
def offsetNotNumericMsg : String := "The offset you passed through the request is not numberic."

/-- Message sent when the page parameter is not numeric. -/
def pageNotNumericMsg : String := "The page number you passed through the request is not numberic."

/-- The validOffset middleware (middleware/index.ts lines 54-68): a
missing offset defaults to 15; a non-numeric offset is rejected with 400;
a numeric offset is replaced by its absolute value, and 0 becomes 15. -/
def validOffset : QueryNum → Except String Int
  | .missing => .ok 15
  | .notNumeric => .error offsetNotNumericMsg
  | .val n => .ok (if |n| = 0 then 15 else |n|)

/-- Maximum page number derived from the row-count query:
`Math.ceil(count / offset)`, for a positive offset. -/
def maxPageFor (rowCount : Nat) (off : Int) : Int :=
  ((rowCount : Int) + off - 1) / off

/-- Clamping step of validPage: a page above the maximum becomes the
maximum, otherwise a page below 1 becomes 1. -/
def pageClamp (page maxPage : Int) : Int :=
  if page > maxPage then maxPage else if page < 1 then 1 else page

/-- The validPage middleware (middleware/index.ts lines 79-113): a missing
page defaults to 1, a non-numeric page is rejected with 400, and a numeric
page is clamped against the maximum derived from `SELECT COUNT(id) FROM
books` and the already-validated offset. -/
def validPage (p : QueryNum) (off : Int) (rowCount : Nat) : Except String Int :=
  match p with
  | .missing => .ok (pageClamp 1 (maxPageFor rowCount off))
  | .notNumeric => .error pageNotNumericMsg
  | .val n => .ok (pageClamp n (maxPageFor rowCount off))

/-- Bound parameters of the /all/title statement
(open/books.ts lines 87-88): `OFFSET $1 LIMIT $2` with
values [offset * (page - 1), offset]. -/
def allTitleValues (off page : Int) : List Int :=
  [off * (page - 1), off]

/-! ## Rating-range middleware (src/src/core/middleware/index.ts,
validMinMax and clamp) -/

/-- The clamp helper of middleware/index.ts lines 224-226; the argument
order (value, max, min) follows the source. -/
def clamp (n mx mn : Int) : Int :=
  if n ≤ mn then mn else if n ≥ mx then mx else n

/-- Outcome of validMinMax: pass with no bounds (both parameters absent),
pass with the processed bounds, or a 400 rejection. -/
inductive MinMaxOutcome where
  | passNone
  | pass (lo hi : Int)
  | reject
deriving DecidableEq, Repr

/-- The validMinMax middleware (middleware/index.ts lines 192-216): when
either bound is present, a missing or non-numeric bound defaults to 1
(min) or 5 (max), both are clamped into [1,5], and the request is rejected
when the clamped min exceeds the clamped max. -/
def validMinMax (m M : QueryNum) : MinMaxOutcome :=
  match m, M with
  | .missing, .missing => .passNone
  | m, M =>
    let mDef : Int := match m with | .val n => n | _ => 1
    let MDef : Int := match M with | .val n => n | _ => 5
    let lo := clamp mDef 5 1
    let hi := clamp MDef 5 1
    if lo > hi then .reject else .pass lo hi

/-! ## Search composer (src/unnamed/part_004, GET /books/search, lines
485-583) -/

/-- A /books/search request as the handlers see it.  The six recognized
query parameters are optional; rmin and rmax model req.query.min and
req.query.max after Number() conversion (the inline checks and the
statement only ever use their numeric values); extraKeys counts query
parameters with any other name, which the first middleware sees through
Object.keys but no later step reads. -/
structure SearchReq where
  q : Option String
  isbn : Option String
  title : Option String
  author : Option String
  rmin : Option Int
  rmax : Option Int
  extraKeys : Nat
deriving DecidableEq, Repr

/-- The getBooksAndAuthorsQuery prefix shared by the search statements
(part_004 lines 145-149, same SQL with different line breaks in part_006);
whitespace is normalized to single spaces, keeping the source's missing
space before GROUP. -/
def baseSearchText : String :=
  "SELECT * FROM books INNER JOIN (SELECT book, STRING_AGG(authors.name, \x27, \x27) AS authors FROM book_author INNER JOIN authors ON (authors.id = book_author.author)GROUP BY book) AS author_table ON (books.id = author_table.book)"

/-- Separator prepended before a clause when the statement no longer ends
with WHERE (the endsWith test of part_004 lines 530-531 and friends,
tracked here as a flag on whether a clause was already appended). -/
def andSep (notFirst : Bool) : String :=
  if notFirst then " AND" else ""

/-- JavaScript `s.charAt(0).toUpperCase() + s.slice(1)` used by the title
predicate. -/
def capFirst (s : String) : String :=
  match s.data with
  | [] => ""
  | c :: cs => String.mk (c.toUpper :: cs)

/-- Number of query parameters in the request, as Object.keys(req.query)
counts them. -/
def paramKeyCount (r : SearchReq) : Nat :=
  (cond r.q.isSome 1 0) + (cond r.isbn.isSome 1 0) + (cond r.title.isSome 1 0) +
    (cond r.author.isSome 1 0) + (cond r.rmin.isSome 1 0) + (cond r.rmax.isSome 1 0) +
    r.extraKeys

/-- Modelled from the spec: validationFunctions.isNumberProvided applied
to a string value (the utilities file is not in the tree).  Following the
spec's "non-numeric identifier ... rejected", a string counts as numeric
when it is non-empty and all digits. -/
def isNumericString (s : String) : Bool :=
  !(s.data.isEmpty) && s.data.all Char.isDigit

/-- The second middleware of the /search route (part_004 lines 496-519):
for non-keyword requests it runs the title/ISBN checkers and the inline
author/min/max checks; the request continues only when no check set a 400
status.  With rmin/rmax numeric, the only live inline rejections are
min > 5, max < 0, and min > max with both present. -/
def filtersOk (r : SearchReq) : Bool :=
  if r.q.isSome then true
  else
    (match r.title with | some t => !(t.trim.length == 0) | none => true)
    && (match r.isbn with | some i => isNumericString i && (i.length == 13) | none => true)
    && (match r.author with | some a => !(a.trim.length == 0) | none => true)
    && !(match r.rmin with | some m => decide (m > 5) | none => false)
    && !(match r.rmax with | some M => decide (M < 0) | none => false)
    && !(match r.rmin, r.rmax with | some m, some M => decide (m > M) | _, _ => false)

/-- The statement builder of the /search handler (part_004 lines 520-583):
starting from `... WHERE`, each present filter appends its clause (with
` AND` once a clause exists) and pushes its bound values, numbering
placeholders with a running counter.  The keyword branch is a placeholder
in the source (a bare console.log), so a request with q set falls through
to queryAndResponse with the dangling `... WHERE` text and no values. -/
def buildSearchStatement (r : SearchReq) : String × List String :=
  let t0 := baseSearchText ++ " WHERE"
  if r.q.isSome then (t0, [])
  else
    let (t1, v1, c1, u1) :=
      match r.isbn with
      | some i => (t0 ++ " isbn13 = $" ++ toString (1 : Nat), [i], (2 : Nat), true)
      | none => (t0, ([] : List String), (1 : Nat), false)
    let (t2, v2, c2, u2) :=
      match r.title with
      | some t =>
        (t1 ++ andSep u1 ++ " (title LIKE $" ++ toString c1 ++ " OR title LIKE $" ++
           toString (c1 + 1) ++ " OR DIFFERENCE(title, $" ++ toString (c1 + 2) ++ ") > 2)",
         v1 ++ [t, capFirst t, t], c1 + 3, true)
      | none => (t1, v1, c1, u1)
    let (t3, v3, c3, u3) :=
      match r.author with
      | some a =>
        (t2 ++ andSep u2 ++ " authors LIKE $" ++ toString c2, v2 ++ ["%" ++ a ++ "%"], c2 + 1, true)
      | none => (t2, v2, c2, u2)
    if r.rmin.isSome || r.rmax.isSome then
      (t3 ++ andSep u3 ++ " rating_avg BETWEEN $" ++ toString c3 ++ " AND $" ++ toString (c3 + 1),
       v3 ++ [toString (r.rmin.getD 0), toString (r.rmax.getD 5)])
    else (t3, v3)

/-- Statement text of buildSearchStatement as a function of which filters
are present only; used to state that the composed text never contains a
user-supplied value. -/
def textOfPresence (i t a mm : Bool) : String :=
  let t0 := baseSearchText ++ " WHERE"
  let (t1, c1, u1) :=
    if i then (t0 ++ " isbn13 = $" ++ toString (1 : Nat), (2 : Nat), true)
    else (t0, (1 : Nat), false)
  let (t2, c2, u2) :=
    if t then
      (t1 ++ andSep u1 ++ " (title LIKE $" ++ toString c1 ++ " OR title LIKE $" ++
         toString (c1 + 1) ++ " OR DIFFERENCE(title, $" ++ toString (c1 + 2) ++ ") > 2)",
       c1 + 3, true)
    else (t1, c1, u1)
  let (t3, c3, u3) :=
    if a then (t2 ++ andSep u2 ++ " authors LIKE $" ++ toString c2, c2 + 1, true)
    else (t2, c2, u2)
  if mm then t3 ++ andSep u3 ++ " rating_avg BETWEEN $" ++ toString c3 ++ " AND $" ++ toString (c3 + 1)
  else t3

/-- Message of the first /search middleware when the request has no query
parameter at all. -/
def noParamMsg : String := "Search required at least one query parameter."

/-- Rejection value standing for the assorted 400 bodies sent by the
inline filter checks (several send empty bodies). -/
def filterRejectMsg : String := ""

/-- Outcome of a search route: a 400 rejection before the store is
contacted, or the parameterized statement handed to pool.query. -/
inductive SearchOutcome where
  | rejected (msg : String)
  | query (stmt : String) (params : List String)
deriving DecidableEq, Repr

/-- The /search route pipeline (part_004 lines 485-583): reject when
Object.keys(req.query) is empty, then run the filter checks, then build
and submit the statement. -/
def searchPipeline (r : SearchReq) : SearchOutcome :=
  if paramKeyCount r = 0 then .rejected noParamMsg
  else if filtersOk r then .query (buildSearchStatement r).1 (buildSearchStatement r).2
  else .rejected filterRejectMsg

/-! ## Title and ISBN search handlers (src/unnamed/part_006, GET
/books/search/title lines 368-389 and GET /books/search/isbn lines
410-427).  Both interpolate the query parameter into the statement text
with template literals and call queryAndResponse without a values
array. -/

/-- Fixed fragment of the /search/title statement before the raw title. -/
def titleSeg1 : String := " WHERE title LIKE \x27"

/-- Fixed fragment between the raw title and its capitalized copy. -/
def titleSeg2 : String := "\x27 OR title LIKE \x27"

/-- Fixed fragment before the DIFFERENCE argument. -/
def titleSeg3 : String := "\x27 OR DIFFERENCE(title, \x27"

/-- Fixed fragment before the SIMILARITY argument. -/
def titleSeg4 : String := "\x27) > 2 ORDER BY SIMILARITY(title, \x27"

/-- Closing fragment of the /search/title statement. -/
def titleSeg5 : String := "\x27) DESC"

/-- Statement text of the /search/title handler: the title parameter is
spliced into the text four times (raw, capitalized, raw, raw). -/
def titleSearchText (t : String) : String :=
  baseSearchText ++ titleSeg1 ++ t ++ titleSeg2 ++ capFirst t ++ titleSeg3 ++ t ++ titleSeg4 ++ t ++ titleSeg5

/-- The /search/title statement submitted to the pool: interpolated text,
empty parameter list. -/
def titleSearchStmt (t : String) : String × List String :=
  (titleSearchText t, [])

/-- Fixed fragment of the /search/isbn statement before the raw ISBN. -/
def isbnSeg : String := " WHERE isbn13 = "

/-- Statement text of the /search/isbn handler, with the ISBN spliced into
the text. -/
def isbnSearchText (i : String) : String :=
  baseSearchText ++ isbnSeg ++ i

/-- The /search/isbn statement submitted to the pool: interpolated text,
empty parameter list. -/
def isbnSearchStmt (i : String) : String × List String :=
  (isbnSearchText i, [])

/-! ## Ordering middleware validOrderby / validSort
(src/src/core/middleware/index.ts lines 22-43) -/

/-- The validOrderby middleware: any value outside title/author/year falls
back to title. -/
def validOrderby (ob : Option String) : String :=
  match ob with
  | none => "title"
  | some s => if s == "title" || s == "author" || s == "year" then s else "title"

/-- The validSort middleware: any value other than asc/desc falls back to
asc. -/
def validSort (s : Option String) : String :=
  match s with
  | none => "asc"
  | some s => if s == "asc" || s == "desc" then s else "asc"

/-! ## Keyword search route (checkQueryHasString, checkQueryFormat and the
rank query; src/unnamed/part_006 lines 215-239 and 446-457) -/

/-- Character class of the checkQueryFormat pattern
`[a-zA-Z0-9\s"-]`: ASCII alphanumerics, the common whitespace characters
matched by JavaScript \s (space, tab, line feed, vertical tab, form feed,
carriage return; the rarer Unicode spaces are not modelled), hyphen and
double quote. -/
def kwAllowed (c : Char) : Bool :=
  c.isAlphanum || c == ' ' || c == '\t' || c == '\n' || c == '\r' ||
    c == Char.ofNat 11 || c == Char.ofNat 12 || c == '-' || c == Char.ofNat 34

/-- Length of the longest prefix of allowed characters, the greedy
consumption of `[a-zA-Z0-9\s"-]+`. -/
def runLen : List Char → Nat
  | [] => 0
  | c :: cs => if kwAllowed c then runLen cs + 1 else 0

/-- Whether position j of the character list satisfies the multiline `$`
anchor: end of input, or immediately before a line feed. -/
def isLineBoundary (cs : List Char) (j : Nat) : Bool :=
  j == cs.length || cs.get? j == some '\n'

/-- Backtracking step of the regex engine: after greedily consuming n
characters, give characters back until the `$` anchor holds, never giving
back the whole (non-empty) match. -/
def backSearch (cs : List Char) : Nat → Option Nat
  | 0 => none
  | j + 1 => if isLineBoundary cs (j + 1) then some (j + 1) else backSearch cs j

/-- Length of the match of `^[a-zA-Z0-9\s"-]+$` (multiline) starting at
the head of cs, when one exists: the longest run of allowed characters cut
back to the last line boundary inside it. -/
def matchLenAt (cs : List Char) : Option Nat :=
  backSearch cs (runLen cs)

/-- Number of matches found by `/^[a-zA-Z0-9\s"-]+$/gm` over the input:
at each position where the multiline `^` anchor holds, take the match
given by matchLenAt and continue after it, otherwise advance one
character.  The fuel argument bounds the recursion by the input length;
every step consumes at least one character, so the initial fuel
cs.length is never exhausted early. -/
def countMatchesAux : Nat → List Char → Bool → Nat
  | 0, _, _ => 0
  | _ + 1, [], _ => 0
  | fuel + 1, c :: rest, lineStart =>
    if lineStart then
      match matchLenAt (c :: rest) with
      | some j => 1 + countMatchesAux fuel (rest.drop (j - 1)) ((c :: rest).get? (j - 1) == some '\n')
      | none => countMatchesAux fuel rest (c == '\n')
    else countMatchesAux fuel rest (c == '\n')

/-- Match count of the checkQueryFormat pattern over a character list,
starting at the beginning of input (where `^` holds). -/
def countMatches (cs : List Char) : Nat :=
  countMatchesAux cs.length cs true

/-- The checkQueryFormat middleware passes exactly when the pattern
produced one match (part_006 lines 229-239). -/
def checkQueryFormatPasses (q : String) : Bool :=
  countMatches q.data == 1

/-- Modelled from the spec: validationFunctions.isStringProvided is not in
the tree; following the spec's description of the boilerplate as
"parameter presence checks" and the jsdoc of checkQueryHasString, it is
modelled as: the parameter is present and non-empty. -/
def isStringProvided : Option String → Bool
  | none => false
  | some s => !(s.data.isEmpty)

/-- Message of checkQueryHasString when no keyword is supplied. -/
def noQueryMsg : String := "No query provided to search for"

/-- Message of checkQueryFormat when the pattern does not produce exactly
one match. -/
def malformedQueryMsg : String := "Malformed query\nQuery must be a single + separated list of keywords"

/-- Statement text of the keyword rank query (part_006 lines 449-452):
fixed text with a single $1 placeholder, ranking by ts_rank descending
with no OFFSET or LIMIT clause. -/
def kwStatementText : String :=
  "SELECT *, ts_rank(kw_vec, websearch_to_tsquery(\x27english\x27, $1)) AS rank, get_authors(id) AS authors FROM books WHERE kw_vec @@ websearch_to_tsquery(\x27english\x27, $1) ORDER BY rank DESC"

/-- The keyword search route: checkQueryHasString, then checkQueryFormat,
then the rank query with the keyword as the only bound parameter. -/
def kwSearchRoute : Option String → SearchOutcome
  | none => .rejected noQueryMsg
  | some s =>
    if isStringProvided (some s) then
      if checkQueryFormatPasses s then .query kwStatementText [s]
      else .rejected malformedQueryMsg
    else .rejected noQueryMsg

/-- Prefix test on character lists, used to state substring facts about
statement texts. -/
def listStartsWith : List Char → List Char → Bool
  | [], _ => true
  | _ :: _, [] => false
  | p :: ps, c :: cs => p == c && listStartsWith ps cs

/-- Occurrence test: pat occurs somewhere in the list. -/
def occursIn (pat : List Char) : List Char → Bool
  | [] => listStartsWith pat []
  | c :: cs => listStartsWith pat (c :: cs) || occursIn pat cs

/-! ## Helper lemmas for the rating pipeline -/

/-- Writing then reading the same bucket yields the written value. -/
theorem getBucket_setBucket (rt : RatingType) (n : Int) (b : Book) :
    getBucket rt (setBucket rt n b) = n := by
  cases rt <;> rfl

/-- setBucket never changes the isbn13 key. -/
theorem isbnMatches_setBucket (isbn : Nat) (rt : RatingType) (n : Int) (b : Book) :
    isbnMatches isbn (setBucket rt n b) = isbnMatches isbn b := by
  cases rt <;> rfl

/-- Rows produced by the bucket UPDATE for a matching row keep matching. -/
theorem isbnMatches_updateFun (isbn : Nat) (rt : RatingType) (ct : ChangeType) (v : Int) (b : Book) :
    isbnMatches isbn (if isbnMatches isbn b then setBucket rt (applyChange ct (getBucket rt b) v) b else b) =
      isbnMatches isbn b := by
  split
  · rw [isbnMatches_setBucket]
  · rfl

/-! ## Concrete stores used by witnesses and counterexamples -/

/-- ISBN shared by the demonstration rows. -/
def demoIsbn : Nat := 1111111111111

/-- The row of the spec's worked example: buckets (10,20,30,40,50). -/
def demoBook : Book :=
  { isbn13 := demoIsbn, rating_1_star := 10, rating_2_star := 20, rating_3_star := 30,
    rating_4_star := 40, rating_5_star := 50, rating_count := 150, rating_avg := 0 }

/-- One-row store holding the worked example. -/
def demoStore : List Book := [demoBook]

/-- Expected row after increasing bucket 3 by 1 on demoBook. -/
def demoAfter : Book :=
  { isbn13 := demoIsbn, rating_1_star := 10, rating_2_star := 20, rating_3_star := 31,
    rating_4_star := 40, rating_5_star := 50, rating_count := 151, rating_avg := Rat.divInt 183 50 }

/-- First of two rows sharing one ISBN (the store tolerates duplicates). -/
def dupBookA : Book :=
  { isbn13 := demoIsbn, rating_1_star := 1, rating_2_star := 1, rating_3_star := 1,
    rating_4_star := 1, rating_5_star := 1, rating_count := 5, rating_avg := 3 }

/-- Second of two rows sharing one ISBN. -/
def dupBookB : Book :=
  { isbn13 := demoIsbn, rating_1_star := 2, rating_2_star := 2, rating_3_star := 2,
    rating_4_star := 2, rating_5_star := 2, rating_count := 10, rating_avg := 3 }

/-- Store with a duplicated ISBN. -/
def dupStore : List Book := [dupBookA, dupBookB]

/-- Row whose only non-zero bucket is bucket 3. -/
def zeroBook : Book :=
  { isbn13 := demoIsbn, rating_1_star := 0, rating_2_star := 0, rating_3_star := 7,
    rating_4_star := 0, rating_5_star := 0, rating_count := 7, rating_avg := 3 }

/-- One-row store for the division-by-zero scenario. -/
def zeroStore : List Book := [zeroBook]

/-! ## C1 -/

/-- C1: whenever the rating update pipeline completes successfully, every
row of the resulting store that matches the supplied ISBN has its stored
rating_count equal to the sum of its five bucket counters and its stored
rating_avg equal to the weighted bucket sum divided by that count, rounded
to two decimals. -/
theorem c1_rating_update_derived_fields (isbn : Nat) (rt : RatingType) (ct : ChangeType)
    (v : Int) (s s' : List Book)
    (h : updateBookRatings isbn rt ct v s = .success s') :
    ∀ b ∈ s', isbnMatches isbn b = true →
      b.rating_count = sumBuckets b ∧
      b.rating_avg = round2 (Rat.divInt (weightedSum b) b.rating_count) := by
  intro b hb hmb
  simp only [updateBookRatings] at h
  split at h
  · exact UpdateResult.noConfusion h
  · split at h
    · exact UpdateResult.noConfusion h
    · split at h
      · exact UpdateResult.noConfusion h
      · injection h with h
        subst h
        obtain ⟨b2, hb2, rfl⟩ := List.mem_map.1 hb
        by_cases hm2 : isbnMatches isbn b2 = true
        · rw [if_pos hm2]
          rw [if_pos hm2] at hmb
          obtain ⟨b1, hb1, rfl⟩ := List.mem_map.1 hb2
          by_cases hm1 : isbnMatches isbn b1 = true
          · rw [if_pos hm1]
            exact ⟨rfl, rfl⟩
          · rw [if_neg hm1] at hm2
            exact absurd hm2 hm1
        · rw [if_neg hm2] at hmb
          exact absurd hmb hm2

/-- Witness for C1: increasing bucket 3 by 1 on the row with buckets
(10,20,30,40,50) succeeds with buckets (10,20,31,40,50), total 151 and
average round((10+40+93+160+250)/151, 2) = 3.66, and the derived-field
invariants of the theorem hold on the resulting row. -/
theorem c1_rating_update_derived_fields_witness :
    updateBookRatings demoIsbn .rating_3_star .increaseby 1 demoStore = .success [demoAfter] ∧
    demoAfter.rating_count = sumBuckets demoAfter ∧
    demoAfter.rating_avg = round2 (Rat.divInt (weightedSum demoAfter) demoAfter.rating_count) ∧
    demoAfter.rating_count = 151 ∧
    demoAfter.rating_avg = round2 (Rat.divInt 553 151) := by
  have h : updateBookRatings demoIsbn .rating_3_star .increaseby 1 demoStore = .success [demoAfter] := by
    decide
  have hd := c1_rating_update_derived_fields demoIsbn .rating_3_star .increaseby 1 demoStore
    [demoAfter] h demoAfter (by simp) (by decide)
  exact ⟨h, hd.1, hd.2, by decide, by decide⟩

/-! ## C2 -/

/-- C2: a rating update whose applied change drives the targeted bucket of
some matching row negative fails with the distinct negative-result error,
and the store it leaves behind is exactly the original one (the
transaction is rolled back); the rendered message differs from the other
two error messages. -/
theorem c2_negative_bucket_rollback (isbn : Nat) (rt : RatingType) (ct : ChangeType)
    (v : Int) (s : List Book)
    (h : ∃ b ∈ s, isbnMatches isbn b = true ∧ applyChange ct (getBucket rt b) v < 0) :
    updateBookRatings isbn rt ct v s = .failure .negativeNumber s ∧
    updateErrorMessage .negativeNumber = "Update incomplete: Rating amount cannot be a negative number." ∧
    updateErrorMessage .negativeNumber ≠ updateErrorMessage .noBooks ∧
    updateErrorMessage .negativeNumber ≠ updateErrorMessage .dbError := by
  obtain ⟨b, hb, hmatch, hneg⟩ := h
  have hcount : matchedCount isbn s ≠ 0 := by
    have : b ∈ s.filter (isbnMatches isbn) := List.mem_filter.2 ⟨hb, hmatch⟩
    simp only [matchedCount]
    exact Nat.pos_iff_ne_zero.1 (List.length_pos.2 (List.ne_nil_of_mem this))
  have hany : anyNegativeBucket isbn rt (updateBucketStmt isbn rt ct v s) = true := by
    apply List.any_eq_true.2
    refine ⟨setBucket rt (applyChange ct (getBucket rt b) v) b, List.mem_filter.2 ⟨?_, ?_⟩, ?_⟩
    · apply List.mem_map.2
      refine ⟨b, hb, ?_⟩
      rw [if_pos hmatch]
    · rw [isbnMatches_setBucket]
      exact hmatch
    · simp only [getBucket_setBucket]
      exact decide_eq_true hneg
  refine ⟨?_, rfl, by decide, by decide⟩
  simp only [updateBookRatings]
  rw [if_neg hcount, if_pos hany]

/-- Witness for C2: decreasing bucket 1 by 20 on the example row (bucket 1
holds 10) would yield -10, so the pipeline reports the negative-result
error and returns the untouched store. -/
theorem c2_negative_bucket_rollback_witness :
    (∃ b ∈ demoStore, isbnMatches demoIsbn b = true ∧
        applyChange .decreaseby (getBucket .rating_1_star b) 20 < 0) ∧
    updateBookRatings demoIsbn .rating_1_star .decreaseby 20 demoStore =
      .failure .negativeNumber demoStore := by
  refine ⟨by decide, ?_⟩
  exact (c2_negative_bucket_rollback demoIsbn .rating_1_star .decreaseby 20 demoStore (by decide)).1

/-! ## C3 -/

/-- C3 counterexample: on a store holding two rows with the same ISBN the
identifier verification matches two rows, yet the pipeline succeeds and
updates both rows instead of aborting with the unknown-identifier error,
so the claimed exactly-one-row verification does not exist in the code. -/
theorem c3_duplicate_isbn_counterexample :
    matchedCount demoIsbn dupStore = 2 ∧
    updateBookRatings demoIsbn .rating_3_star .increaseby 1 dupStore =
      .success
        [{ isbn13 := demoIsbn, rating_1_star := 1, rating_2_star := 1, rating_3_star := 2,
           rating_4_star := 1, rating_5_star := 1, rating_count := 6, rating_avg := 3 },
         { isbn13 := demoIsbn, rating_1_star := 2, rating_2_star := 2, rating_3_star := 3,
           rating_4_star := 2, rating_5_star := 2, rating_count := 11, rating_avg := 3 }] := by
  constructor
  · decide
  · decide

/-- C3 amended: the pipeline only verifies that the identifier matched at
least one row; when it matches zero rows the pipeline aborts with the
distinct unknown-identifier error and returns the untouched store (when it
matches several rows all of them are updated, as the counterexample
shows). -/
theorem c3_zero_rows_abort (isbn : Nat) (rt : RatingType) (ct : ChangeType) (v : Int)
    (s : List Book) (h : matchedCount isbn s = 0) :
    updateBookRatings isbn rt ct v s = .failure .noBooks s ∧
    updateErrorMessage .noBooks = "Update incomplete: No book with this ISBN." ∧
    updateErrorMessage .noBooks ≠ updateErrorMessage .negativeNumber ∧
    updateErrorMessage .noBooks ≠ updateErrorMessage .dbError := by
  refine ⟨?_, rfl, by decide, by decide⟩
  simp only [updateBookRatings]
  rw [if_pos h]

/-- Witness for the amended C3: an ISBN present on no row aborts with the
unknown-identifier error and leaves the store as it was. -/
theorem c3_zero_rows_abort_witness :
    matchedCount 9999999999999 demoStore = 0 ∧
    updateBookRatings 9999999999999 .rating_3_star .increaseby 1 demoStore =
      .failure .noBooks demoStore := by
  refine ⟨by decide, ?_⟩
  exact (c3_zero_rows_abort 9999999999999 .rating_3_star .increaseby 1 demoStore (by decide)).1

/-! ## C10 -/

/-- C10: when the applied change leaves every bucket of a matching row at
zero (and the pipeline passes the zero-row and negativity checks), the
average recomputation divides by the freshly computed zero total, the
statement fails, the transaction is rolled back to the original store, and
the caller gets the generic storage-failure message. -/
theorem c10_zero_total_div_by_zero (isbn : Nat) (rt : RatingType) (ct : ChangeType)
    (v : Int) (s : List Book)
    (h0 : matchedCount isbn s ≠ 0)
    (h1 : anyNegativeBucket isbn rt (updateBucketStmt isbn rt ct v s) = false)
    (h2 : ∃ b ∈ updateBucketStmt isbn rt ct v s, isbnMatches isbn b = true ∧
        b.rating_1_star = 0 ∧ b.rating_2_star = 0 ∧ b.rating_3_star = 0 ∧
        b.rating_4_star = 0 ∧ b.rating_5_star = 0) :
    updateBookRatings isbn rt ct v s = .failure .dbError s ∧
    updateErrorMessage .dbError = "Server or database error occurred." := by
  obtain ⟨b, hb, hmatch, e1, e2, e3, e4, e5⟩ := h2
  have hzero : anyZeroCount isbn (calcCountStmt isbn (updateBucketStmt isbn rt ct v s)) = true := by
    apply List.any_eq_true.2
    refine ⟨{ b with rating_count := sumBuckets b }, List.mem_filter.2 ⟨?_, ?_⟩, ?_⟩
    · apply List.mem_map.2
      refine ⟨b, hb, ?_⟩
      rw [if_pos hmatch]
    · exact hmatch
    · have : sumBuckets b = 0 := by
        simp only [sumBuckets, e1, e2, e3, e4, e5]
        ring
      simp [this]
  refine ⟨?_, rfl⟩
  simp only [updateBookRatings]
  rw [if_neg h0, if_neg (by simp [h1]), if_pos hzero]

/-- Witness for C10: setting the only non-zero bucket of a row to 0 leaves
all five buckets at zero; the pipeline reports the generic storage error
and returns the untouched store. -/
theorem c10_zero_total_div_by_zero_witness :
    matchedCount demoIsbn zeroStore ≠ 0 ∧
    anyNegativeBucket demoIsbn .rating_3_star
      (updateBucketStmt demoIsbn .rating_3_star .setto 0 zeroStore) = false ∧
    updateBookRatings demoIsbn .rating_3_star .setto 0 zeroStore =
      .failure .dbError zeroStore := by
  refine ⟨by decide, by decide, ?_⟩
  exact (c10_zero_total_div_by_zero demoIsbn .rating_3_star .setto 0 zeroStore
    (by decide) (by decide) (by decide)).1

/-! ## C4 -/

/-- C4 counterexample: started with installed version 5, which is greater
than the highest known script 4, migrateFromVersion throws the
unrecognized-version error, but migrate catches it in the same catch that
handles the 42P01 read failure and merely logs it: migrate returns a
normal logged-error outcome and startup proceeds, so the claimed fatal
failure does not happen. -/
theorem c4_version_above_latest_counterexample :
    migrateFromVersion 5 = .error (unrecognizedVersionMsg 5) ∧
    migrate (.found 5) = .loggedError (migrateLogMsg (unrecognizedVersionMsg 5)) := by
  constructor
  · rfl
  · rfl

/-- C4 amended: started with no version record the engine applies exactly
the scripts 1,2,3,4 in strictly ascending order and the version record
ends at the highest known version 4; started at version 4 it applies zero
scripts; started at any version above 4 migrateFromVersion raises the
unrecognized-version error, which migrate catches and logs, returning
normally instead of aborting startup. -/
theorem c4_migration_order_amended :
    migrate .relationMissing = .upgraded [1, 2, 3, 4] ∧
    List.Chain' (· < ·) [1, 2, 3, 4] ∧
    runScripts { version := none } [1, 2, 3, 4] = { version := some latestKnownVersion } ∧
    migrate (.found latestKnownVersion) = .upgraded [] ∧
    (∀ v : Nat, latestKnownVersion < v →
      migrate (.found v) = .loggedError (migrateLogMsg (unrecognizedVersionMsg v))) := by
  refine ⟨rfl, by norm_num [List.chain'_cons, List.chain'_singleton], rfl, rfl, ?_⟩
  intro v hv
  obtain ⟨k, rfl⟩ : ∃ k, v = k + 5 := ⟨v - 5, by simp [latestKnownVersion] at hv; omega⟩
  rfl

/-- Witness for the amended C4: at installed version 7 the engine returns
the logged-error outcome with the unrecognized-version message. -/
theorem c4_migration_order_amended_witness :
    latestKnownVersion < 7 ∧
    migrate (.found 7) = .loggedError (migrateLogMsg (unrecognizedVersionMsg 7)) := by
  refine ⟨by decide, ?_⟩
  exact c4_migration_order_amended.2.2.2.2 7 (by decide)

/-! ## C7 -/

/-- C7 counterexample: a numeric page size of -7 is accepted as its
absolute value 7, not replaced by the default 15 that the claim specifies
for negative page sizes. -/
theorem c7_negative_pagesize_counterexample :
    validOffset (.val (-7)) = .ok 7 ∧ (7 : Int) ≠ 15 := by
  constructor
  · rfl
  · decide

/-- C7 amended: the page size defaults to 15 only when missing or zero; a
non-zero numeric page size is replaced by its absolute value (hence at
least 1); a non-numeric page size is rejected with 400 rather than
defaulted; a numeric page number is clamped first down to
maxPage = ceil(rowCount / pageSize) and then up to 1, which lands it in
[1, maxPage] whenever the row count is at least 1; and the /all/title
statement binds the row offset (clampedPage - 1) * pageSize and the limit
pageSize. -/
theorem c7_pagination_amended :
    validOffset .missing = .ok 15 ∧
    validOffset (.val 0) = .ok 15 ∧
    validOffset .notNumeric = .error offsetNotNumericMsg ∧
    (∀ n : Int, n ≠ 0 → validOffset (.val n) = .ok |n| ∧ 1 ≤ |n|) ∧
    (∀ off rowCount, validPage .notNumeric off rowCount = .error pageNotNumericMsg) ∧
    (∀ p off rowCount, validPage (.val p) off rowCount = .ok (pageClamp p (maxPageFor rowCount off))) ∧
    (∀ p off (rowCount : Nat), 1 ≤ off → 1 ≤ rowCount →
        1 ≤ pageClamp p (maxPageFor rowCount off) ∧
        pageClamp p (maxPageFor rowCount off) ≤ maxPageFor rowCount off) ∧
    (∀ off page : Int, allTitleValues off page = [off * (page - 1), off]) := by
  refine ⟨rfl, rfl, rfl, ?_, fun _ _ => rfl, fun _ _ _ => rfl, ?_, fun _ _ => rfl⟩
  · intro n hn
    have habs : |n| ≠ 0 := fun h => hn (abs_eq_zero.1 h)
    constructor
    · simp only [validOffset]
      rw [if_neg habs]
    · rcases abs_cases n with ⟨h1, _⟩ | ⟨h1, _⟩ <;> omega
  · intro p off rowCount hoff hcount
    have hmax : 1 ≤ maxPageFor rowCount off := by
      have hpos : (0 : Int) < off := by omega
      have : (1 : Int) * off ≤ (rowCount : Int) + off - 1 := by
        have : (1 : Int) ≤ (rowCount : Int) := by exact_mod_cast hcount
        omega
      simpa [maxPageFor] using (Int.le_ediv_iff_mul_le hpos).2 this
    simp only [pageClamp]
    split
    · omega
    · split <;> omega

/-- Witness for the amended C7: page size -7 becomes 7; a requested page
99 over 100 rows of size 15 is clamped into [1, 7]. -/
theorem c7_pagination_amended_witness :
    validOffset (.val (-7)) = .ok |(-7 : Int)| ∧
    validPage (.val 99) 15 100 = .ok (pageClamp 99 (maxPageFor 100 15)) ∧
    1 ≤ pageClamp 99 (maxPageFor 100 15) ∧
    pageClamp 99 (maxPageFor 100 15) ≤ maxPageFor 100 15 := by
  obtain ⟨-, -, -, h4, -, h6, h7, -⟩ := c7_pagination_amended
  refine ⟨(h4 (-7) (by decide)).1, h6 99 15 100, ?_, ?_⟩
  · exact (h7 99 15 100 (by decide) (by decide)).1
  · exact (h7 99 15 100 (by decide) (by decide)).2

/-! ## C8 -/

/-- Clamping into [1,5] really lands in [1,5]. -/
theorem clamp15_bounds (n : Int) : 1 ≤ clamp n 5 1 ∧ clamp n 5 1 ≤ 5 := by
  simp only [clamp]
  split
  · omega
  · split <;> omega

/-- Request that supplies only the rating lower bound -3. -/
def minNegReq : SearchReq :=
  { q := none, isbn := none, title := none, author := none,
    rmin := some (-3), rmax := none, extraKeys := 0 }

set_option maxRecDepth 8192 in
/-- C8 counterexample: the operative /search path accepts a rating lower
bound of -3 (the inline checks only reject min > 5, max < 0 and min > max)
and binds it unclamped into the executed statement together with the
defaulted upper bound 5; the claim instead requires the bound to be
clamped into [1,5] before use. -/
theorem c8_unclamped_min_counterexample :
    searchPipeline minNegReq =
      .query (baseSearchText ++ " WHERE rating_avg BETWEEN $1 AND $2") ["-3", "5"] ∧
    ((-3 : Int) < 1) := by
  constructor
  · decide
  · decide

/-- Request that supplies only the rating upper bound. -/
def onlyMaxReq (M : Int) : SearchReq :=
  { q := none, isbn := none, title := none, author := none,
    rmin := none, rmax := some M, extraKeys := 0 }

/-- Request that supplies both rating bounds. -/
def bothBoundsReq (m M : Int) : SearchReq :=
  { q := none, isbn := none, title := none, author := none,
    rmin := some m, rmax := some M, extraKeys := 0 }

/-- C8 amended: the validMinMax middleware does clamp both bounds into
[1,5] (defaulting a missing or non-numeric bound to 1 or 5) and rejects
when the clamped min exceeds the clamped max; but the operative /search
path uses the raw bounds: a request with only a max binds the lower bound
0 (not 1) and the raw max, and a request with both bounds and min > max
(with min at most 5 and max non-negative) is rejected by the inline check
before any statement is built. -/
theorem c8_rating_range_amended :
    (∀ m M : QueryNum, ∀ lo hi : Int, validMinMax m M = .pass lo hi →
        1 ≤ lo ∧ lo ≤ hi ∧ hi ≤ 5) ∧
    (∀ M : Int, buildSearchStatement (onlyMaxReq M) =
        (baseSearchText ++ " WHERE" ++ andSep false ++ " rating_avg BETWEEN $" ++
           toString (1 : Nat) ++ " AND $" ++ toString (2 : Nat),
         [toString (0 : Int), toString M])) ∧
    (∀ m M : Int, m ≤ 5 → 0 ≤ M → m > M →
        searchPipeline (bothBoundsReq m M) = .rejected filterRejectMsg) := by
  refine ⟨?_, fun M => rfl, ?_⟩
  · intro m M lo hi h
    cases m <;> cases M <;>
      simp only [validMinMax] at h <;>
      first
      | exact MinMaxOutcome.noConfusion h
      | · split at h
          · exact MinMaxOutcome.noConfusion h
          · rename_i hgt
            injection h with h1 h2
            subst h1
            subst h2
            refine ⟨(clamp15_bounds _).1, by omega, (clamp15_bounds _).2⟩
  · intro m M h5 h0 hmM
    have hcount : paramKeyCount (bothBoundsReq m M) = 2 := rfl
    have hf : filtersOk (bothBoundsReq m M) = false := by
      simp only [filtersOk, bothBoundsReq]
      simp [decide_eq_true hmM]
    simp [searchPipeline, hcount, hf]

/-- Witness for the amended C8: validMinMax turns min=-3 with max missing
into the clamped pass (1,5); the /search path with only max=4 binds
("0","4"); and min=4 with max=2 is rejected inline. -/
theorem c8_rating_range_amended_witness :
    validMinMax (.val (-3)) .missing = .pass 1 5 ∧
    (1 ≤ (1 : Int) ∧ (1 : Int) ≤ (5 : Int) ∧ (5 : Int) ≤ 5) ∧
    buildSearchStatement (onlyMaxReq 4) =
      (baseSearchText ++ " WHERE" ++ andSep false ++ " rating_avg BETWEEN $" ++
         toString (1 : Nat) ++ " AND $" ++ toString (2 : Nat),
       [toString (0 : Int), toString (4 : Int)]) ∧
    searchPipeline (bothBoundsReq 4 2) = .rejected filterRejectMsg := by
  obtain ⟨h1, h2, h3⟩ := c8_rating_range_amended
  refine ⟨by decide, h1 (.val (-3)) .missing 1 5 (by decide), h2 4, h3 4 2 (by decide) (by decide) (by decide)⟩

/-! ## C6 -/

/-- Request with a single unrecognized query parameter and no filter. -/
def junkReq : SearchReq :=
  { q := none, isbn := none, title := none, author := none,
    rmin := none, rmax := none, extraKeys := 1 }

/-- C6 counterexample: a request carrying one unrecognized query parameter
has zero active filter predicates, yet it passes the only zero-predicate
guard (which merely tests Object.keys being non-empty) and a dangling
statement ending in WHERE is submitted to the pool with no bound values,
contradicting the claim that such requests are rejected before any
statement is built. -/
theorem c6_junk_param_counterexample :
    junkReq.q = none ∧ junkReq.isbn = none ∧ junkReq.title = none ∧
    junkReq.author = none ∧ junkReq.rmin = none ∧ junkReq.rmax = none ∧
    searchPipeline junkReq = .query (baseSearchText ++ " WHERE") [] := by
  refine ⟨rfl, rfl, rfl, rfl, rfl, rfl, rfl⟩

/-- C6 amended: the composer rejects a non-keyword request before building
any statement only when the request has no query parameter at all; a
request whose only parameter is unrecognized is not rejected, and the
malformed dangling-WHERE statement is sent to the pool. -/
theorem c6_zero_param_amended :
    (∀ r : SearchReq, paramKeyCount r = 0 → searchPipeline r = .rejected noParamMsg) ∧
    searchPipeline junkReq = .query (baseSearchText ++ " WHERE") [] := by
  constructor
  · intro r h
    simp [searchPipeline, h]
  · rfl

/-- Request with no query parameter at all. -/
def emptyReq : SearchReq :=
  { q := none, isbn := none, title := none, author := none,
    rmin := none, rmax := none, extraKeys := 0 }

/-- Witness for the amended C6: the empty request is rejected with the
at-least-one-parameter message. -/
theorem c6_zero_param_amended_witness :
    paramKeyCount emptyReq = 0 ∧ searchPipeline emptyReq = .rejected noParamMsg := by
  refine ⟨rfl, ?_⟩
  exact c6_zero_param_amended.1 emptyReq rfl

/-! ## C5 -/

/-- The composed /search statement text depends only on which filters are
present, never on their values. -/
theorem buildSearch_text_presence (r : SearchReq) (hq : r.q = none) :
    (buildSearchStatement r).1 =
      textOfPresence r.isbn.isSome r.title.isSome r.author.isSome
        (r.rmin.isSome || r.rmax.isSome) := by
  obtain ⟨q, isbn, title, author, mn, mx, ex⟩ := r
  cases hq
  cases isbn <;> cases title <;> cases author <;> cases mn <;> cases mx <;> rfl

/-- Title input used by the interpolation counterexample. -/
def demoTitleQuery : String := "abc"

set_option maxRecDepth 8192 in
/-- C5 counterexample: the /search/title handler splices the user-supplied
title directly into the statement text (it occurs in the executed text)
and passes no bound parameters at all, contradicting the claim that every
user-supplied value reaches the statement only as a bound parameter. -/
theorem c5_title_interpolation_counterexample :
    occursIn demoTitleQuery.data (titleSearchText demoTitleQuery).data = true ∧
    (titleSearchStmt demoTitleQuery).2 = ([] : List String) := by
  constructor
  · decide
  · rfl

/-- C5 amended: in the multi-filter /search composer the statement text is
a function of filter presence only (so no user value is interpolated
there), the keyword route always executes the fixed rank statement with
the keyword as its only bound parameter, and the ordering keywords
produced by validOrderby and validSort always come from the fixed sets
{title, author, year} and {asc, desc}; the /search/title and /search/isbn
handlers, however, splice the raw title and ISBN into the statement text
and bind nothing. -/
theorem c5_parameterization_amended :
    (∀ r r2 : SearchReq, r.q = none → r2.q = none →
        r.isbn.isSome = r2.isbn.isSome → r.title.isSome = r2.title.isSome →
        r.author.isSome = r2.author.isSome →
        (r.rmin.isSome || r.rmax.isSome) = (r2.rmin.isSome || r2.rmax.isSome) →
        (buildSearchStatement r).1 = (buildSearchStatement r2).1) ∧
    (∀ s : String, isStringProvided (some s) = true → checkQueryFormatPasses s = true →
        kwSearchRoute (some s) = .query kwStatementText [s]) ∧
    (∀ t : String, titleSearchStmt t =
        (baseSearchText ++ titleSeg1 ++ t ++ titleSeg2 ++ capFirst t ++ titleSeg3 ++ t ++
           titleSeg4 ++ t ++ titleSeg5, [])) ∧
    (∀ i : String, isbnSearchStmt i = (baseSearchText ++ isbnSeg ++ i, [])) ∧
    (∀ ob : Option String, validOrderby ob = "title" ∨ validOrderby ob = "author" ∨
        validOrderby ob = "year") ∧
    (∀ sd : Option String, validSort sd = "asc" ∨ validSort sd = "desc") := by
  refine ⟨?_, ?_, fun t => rfl, fun i => rfl, ?_, ?_⟩
  · intro r r2 hq hq2 h1 h2 h3 h4
    rw [buildSearch_text_presence r hq, buildSearch_text_presence r2 hq2, h1, h2, h3, h4]
  · intro s h1 h2
    simp [kwSearchRoute, h1, h2]
  · intro ob
    cases ob with
    | none => exact Or.inl rfl
    | some s =>
      simp only [validOrderby]
      split
      · rename_i h
        simp only [Bool.or_eq_true, beq_iff_eq] at h
        tauto
      · exact Or.inl rfl
  · intro sd
    cases sd with
    | none => exact Or.inl rfl
    | some s =>
      simp only [validSort]
      split
      · rename_i h
        simp only [Bool.or_eq_true, beq_iff_eq] at h
        tauto
      · exact Or.inl rfl

/-- Search request with only an ISBN filter, first value. -/
def isbnReqA : SearchReq :=
  { q := none, isbn := some ("1234567890123" : String), title := none, author := none,
    rmin := none, rmax := none, extraKeys := 0 }

/-- Search request with only an ISBN filter, second value. -/
def isbnReqB : SearchReq :=
  { q := none, isbn := some ("9999999999999" : String), title := none, author := none,
    rmin := none, rmax := none, extraKeys := 0 }

/-- Keyword used by the parameterization witness. -/
def goodKeyword : String := "harry potter"

/-- Witness for the amended C5: two ISBN-only requests with different
values produce the same statement text, and a well-formed keyword runs the
fixed rank statement with the keyword as its only bound parameter. -/
theorem c5_parameterization_amended_witness :
    (buildSearchStatement isbnReqA).1 = (buildSearchStatement isbnReqB).1 ∧
    kwSearchRoute (some goodKeyword) = .query kwStatementText [goodKeyword] := by
  constructor
  · exact c5_parameterization_amended.1 isbnReqA isbnReqB rfl rfl rfl rfl rfl rfl
  · exact c5_parameterization_amended.2.1 goodKeyword (by decide) (by decide)

/-! ## C9 -/

/-- A disallowed character cuts the greedy run short of the input end. -/
theorem runLen_lt_of_disallowed :
    ∀ cs : List Char, (∃ c ∈ cs, kwAllowed c = false) → runLen cs < cs.length := by
  intro cs h
  induction cs with
  | nil =>
    obtain ⟨c, hc, _⟩ := h
    exact absurd hc (List.not_mem_nil c)
  | cons c rest ih =>
    by_cases hk : kwAllowed c = true
    · simp only [runLen, if_pos hk, List.length_cons]
      obtain ⟨d, hd, hkd⟩ := h
      rcases List.mem_cons.1 hd with rfl | hd2
      · rw [hk] at hkd
        exact absurd hkd (by simp)
      · exact Nat.succ_lt_succ (ih ⟨d, hd2, hkd⟩)
    · simp only [runLen, if_neg hk, List.length_cons]
      omega

/-- Backtracking finds nothing when no candidate position is a line
boundary. -/
theorem backSearch_none_of (cs : List Char) :
    ∀ n : Nat, (∀ j, 1 ≤ j → j ≤ n → isLineBoundary cs j = false) → backSearch cs n = none := by
  intro n
  induction n with
  | zero => intro _; rfl
  | succ n ih =>
    intro h
    have hb : isLineBoundary cs (n + 1) = false := h (n + 1) (by omega) (Nat.le_refl _)
    simp only [backSearch, hb, Bool.false_eq_true, if_false]
    exact ih (fun j h1 h2 => h j h1 (Nat.le_succ_of_le h2))

/-- On newline-free input with a disallowed character, no match starts at
the head: the greedy run ends before the input does and contains no line
boundary. -/
theorem matchLenAt_none_of (cs : List Char) (hnl : '\n' ∉ cs)
    (hbad : ∃ c ∈ cs, kwAllowed c = false) : matchLenAt cs = none := by
  have hlt := runLen_lt_of_disallowed cs hbad
  apply backSearch_none_of
  intro j h1 h2
  have hj : j < cs.length := lt_of_le_of_lt h2 hlt
  have h3 : (j == cs.length) = false := by
    rw [beq_eq_false_iff_ne]
    omega
  have h4 : (cs.get? j == some '\n') = false := by
    rw [beq_eq_false_iff_ne]
    intro hc
    exact hnl (List.get?_mem hc)
  simp only [isLineBoundary]
  rw [h3, h4]
  rfl

/-- On newline-free input the scanner never reaches a line-start position
again, so with the start flag cleared it finds no match at all. -/
theorem countMatchesAux_false_zero :
    ∀ (fuel : Nat) (cs : List Char), '\n' ∉ cs → countMatchesAux fuel cs false = 0 := by
  intro fuel
  induction fuel with
  | zero => intro cs _; rfl
  | succ fuel ih =>
    intro cs h
    cases cs with
    | nil => rfl
    | cons c rest =>
      have hc : (c == '\n') = false := by
        rw [beq_eq_false_iff_ne]
        intro e
        exact h (by rw [← e]; exact List.mem_cons_self c rest)
      simp only [countMatchesAux, Bool.false_eq_true, if_false, hc]
      exact ih rest (fun m => h (List.mem_cons_of_mem c m))

/-- A newline-free input containing a disallowed character produces zero
matches of the checkQueryFormat pattern. -/
theorem countMatches_zero_of_disallowed (cs : List Char)
    (hnl : '\n' ∉ cs) (hbad : ∃ c ∈ cs, kwAllowed c = false) :
    countMatches cs = 0 := by
  cases cs with
  | nil =>
    obtain ⟨c, hc, _⟩ := hbad
    exact absurd hc (List.not_mem_nil c)
  | cons c rest =>
    have hm := matchLenAt_none_of (c :: rest) hnl hbad
    have hc : (c == '\n') = false := by
      rw [beq_eq_false_iff_ne]
      intro e
      exact hnl (by rw [← e]; exact List.mem_cons_self c rest)
    simp only [countMatches, List.length_cons, countMatchesAux, if_true, hm, hc]
    exact countMatchesAux_false_zero rest.length rest (fun m => hnl (List.mem_cons_of_mem c m))

/-- Multi-line keyword whose second line hides a disallowed character. -/
def badKeyword : String := "ab\ncd?"

set_option maxRecDepth 8192 in
/-- C9 counterexample: the keyword "ab\ncd?" contains the disallowed
character ?, yet the multiline pattern of checkQueryFormat finds exactly
one match (its first line), so the route accepts the keyword and executes
the rank query instead of rejecting it as the claim requires. -/
theorem c9_multiline_keyword_counterexample :
    ('?' ∈ badKeyword.data) ∧ kwAllowed '?' = false ∧
    kwSearchRoute (some badKeyword) = .query kwStatementText [badKeyword] := by
  refine ⟨by decide, by decide, by decide⟩

/-- Substring pattern for the descending rank ordering clause. -/
def rankOrderPattern : String := "ORDER BY rank DESC"

/-- Substring pattern for a row-offset clause. -/
def offsetPattern : String := "OFFSET"

/-- Substring pattern for a row-limit clause. -/
def limitPattern : String := "LIMIT"

/-- C9 amended: the keyword path takes precedence (the composer with a
keyword present ignores every other filter, and the keyword route executes
a fixed statement over the whole result set, ordered by relevance rank
descending with no OFFSET or LIMIT clause, with the keyword as its only
bound parameter); a newline-free keyword containing any character outside
alphanumerics, whitespace, hyphen and double quote is rejected before any
query runs, but a multi-line keyword can smuggle such a character past the
multiline pattern, as the counterexample shows. -/
theorem c9_keyword_path_amended :
    (∀ r : SearchReq, r.q.isSome = true →
        buildSearchStatement r = (baseSearchText ++ " WHERE", [])) ∧
    occursIn rankOrderPattern.data kwStatementText.data = true ∧
    occursIn offsetPattern.data kwStatementText.data = false ∧
    occursIn limitPattern.data kwStatementText.data = false ∧
    (∀ s : String, isStringProvided (some s) = true → checkQueryFormatPasses s = true →
        kwSearchRoute (some s) = .query kwStatementText [s]) ∧
    (∀ s : String, '\n' ∉ s.data → (∃ c ∈ s.data, kwAllowed c = false) →
        kwSearchRoute (some s) = .rejected malformedQueryMsg) := by
  refine ⟨?_, by decide, by decide, by decide, ?_, ?_⟩
  · intro r h
    simp [buildSearchStatement, h]
  · intro s h1 h2
    simp [kwSearchRoute, h1, h2]
  · intro s hnl hbad
    have hsp : isStringProvided (some s) = true := by
      obtain ⟨c, hc, _⟩ := hbad
      cases hs : s.data with
      | nil => rw [hs] at hc; exact absurd hc (List.not_mem_nil c)
      | cons d rest => simp [isStringProvided, hs]
    have hfmt : checkQueryFormatPasses s = false := by
      simp [checkQueryFormatPasses, countMatches_zero_of_disallowed s.data hnl hbad]
    simp [kwSearchRoute, hsp, hfmt]

/-- Single-line keyword with a disallowed character. -/
def badFlatKeyword : String := "abc?"

set_option maxRecDepth 8192 in
/-- Witness for the amended C9: the single-line keyword "abc?" is rejected
as malformed, and the clean keyword runs the rank query. -/
theorem c9_keyword_path_amended_witness :
    ('\n' ∉ badFlatKeyword.data) ∧
    (∃ c ∈ badFlatKeyword.data, kwAllowed c = false) ∧
    kwSearchRoute (some badFlatKeyword) = .rejected malformedQueryMsg ∧
    kwSearchRoute (some goodKeyword) = .query kwStatementText [goodKeyword] := by
  refine ⟨by decide, by decide, ?_, ?_⟩
  · exact c9_keyword_path_amended.2.2.2.2.2 badFlatKeyword (by decide) (by decide)
  · exact c9_keyword_path_amended.2.2.2.2.1 goodKeyword (by decide) (by decide)
